import Mathlib

/-!
Verification development for the torii GraphQL component object
(`crates/torii/src/graphql/object/component.rs`).

The Rust source is shallowly embedded: the SQLite store is a list of rows,
async resolution is pure `Except`-valued computation, and the async-graphql
dynamic `Value` is a tagged scalar type.  Helper modules referenced by the
source file but not part of the excerpt (`storage.rs`, `utils`, `types`) are
modelled from the specification and marked as such in their doc comments.
-/

namespace Dojo

/-- Tagged scalar value, the embedding of `async_graphql::Value` restricted to
the variants this code produces or consumes (string / int / bool / null). -/
inductive GqlValue where
  | str : String → GqlValue
  | int : Int → GqlValue
  | bool : Bool → GqlValue
  | null : GqlValue
  deriving DecidableEq, Repr

/-- Embedding of `ValueMapping = IndexMap<Name, Value>`: an ordered
association list from field name to tagged value. -/
abbrev ValueMapping : Type := List (String × GqlValue)

/-- Embedding of `TypeMapping = IndexMap<Name, String>`: an ordered
association list from field name to type-reference name. -/
abbrev TypeMapping : Type := List (String × String)

/-- Error taxonomy of the resolution pipeline (spec section 7): parse errors,
field-missing / type-mismatch extraction failures, row-not-found from the
store, and store connection/query failure. -/
inductive GqlError where
  | parseError : String → GqlError
  | fieldMissing : String → GqlError
  | typeMismatch : String → GqlError
  | rowNotFound : GqlError
  | storeFailure : GqlError
  deriving DecidableEq, Repr

/-- UTC timestamp at second precision, the embedding of
`chrono::DateTime<Utc>` as the code uses it (it only ever serializes with
`SecondsFormat::Secs`). -/
structure UtcDateTime where
  year : Nat
  month : Nat
  day : Nat
  hour : Nat
  minute : Nat
  second : Nat
  deriving DecidableEq, Repr

/-- Left-pad the decimal representation of `n` with zeros to width `w`. -/
def padZeros (w : Nat) (n : Nat) : String :=
  let s := toString n
  String.mk (List.replicate (w - s.length) '0' ++ s.data)

/-- Embedding of `DateTime::<Utc>::to_rfc3339_opts(SecondsFormat::Secs, true)`:
RFC3339 at second precision with the UTC offset printed as `Z`. -/
def toRfc3339SecsZ (d : UtcDateTime) : String :=
  padZeros 4 d.year ++ "-" ++ padZeros 2 d.month ++ "-" ++ padZeros 2 d.day ++
    "T" ++ padZeros 2 d.hour ++ ":" ++ padZeros 2 d.minute ++ ":" ++
    padZeros 2 d.second ++ "Z"

/-- The `Component` row struct of the source file. -/
structure Component where
  id : String
  name : String
  address : String
  class_hash : String
  transaction_hash : String
  storage_definition : String
  created_at : UtcDateTime
  deriving DecidableEq, Repr

/-- Schema type references (`async_graphql::dynamic::TypeRef`), restricted to
the constructors the source uses: `named` and the non-null wrapper
(`named_nn`). -/
inductive TypeRefE where
  | named : String → TypeRefE
  | nonNull : TypeRefE → TypeRefE
  deriving DecidableEq, Repr

/-- `TypeRef::named_nn`. -/
def TypeRefE.named_nn (s : String) : TypeRefE := .nonNull (.named s)

namespace TypeRef

/-- `TypeRef::ID` renders as the type name "ID". -/
def ID : String := "ID"

/-- `TypeRef::STRING` renders as the type name "String". -/
def STRING : String := "String"

end TypeRef

namespace ScalarType

/-- Modelled from the spec: the Scalar Type Registry (`graphql/types.rs`, not
in the excerpt) maps the Address scalar kind to the schema type name
"Address". -/
def ADDRESS : String := "Address"

/-- Modelled from the spec: the registry maps the field-element scalar kind to
the schema type name "Felt". -/
def FELT : String := "Felt"

/-- Modelled from the spec: the registry maps the datetime scalar kind to the
schema type name "DateTime". -/
def DATE_TIME : String := "DateTime"

end ScalarType

/-- `value_mapping(component)`: decodes a `Component` row into the generic
value mapping, serializing `created_at` with
`to_rfc3339_opts(SecondsFormat::Secs, true)`. -/
def value_mapping (c : Component) : ValueMapping :=
  [ ("id", GqlValue.str c.id),
    ("name", GqlValue.str c.name),
    ("address", GqlValue.str c.address),
    ("classHash", GqlValue.str c.class_hash),
    ("transactionHash", GqlValue.str c.transaction_hash),
    ("storageDefinition", GqlValue.str c.storage_definition),
    ("createdAt", GqlValue.str (toRfc3339SecsZ c.created_at)) ]

/-- Modelled from the spec: `extract::<T>(value_mapping, field_name)` from
`graphql/utils/extract_value.rs` (not in the excerpt) is a typed, fallible
accessor failing with "field missing" if the field is absent and
"type mismatch" if its value is not convertible to the requested type.  This
is the `T = String` instantiation, the only one the excerpt uses. -/
def extract (vm : ValueMapping) (field : String) : Except GqlError String :=
  match List.lookup field vm with
  | none => .error (.fieldMissing field)
  | some (GqlValue.str s) => .ok s
  | some _ => .error (.typeMismatch field)

/-- Modelled from the spec: `remove_quotes` from `graphql/utils` (not in the
excerpt) normalizes identifiers arriving as quoted string literals by
stripping literal double-quote characters, so that `"abc"` and `abc` yield
the same lookup key. -/
def remove_quotes (s : String) : String :=
  String.mk (s.data.filter (fun c => c ≠ '"'))

/-- sqlx `fetch_one` semantics over the embedded `components` table: the first
row matching the bound id, or a `RowNotFound` error when no row matches. -/
def fetch_one (db : List Component) (id : String) : Except GqlError Component :=
  match db.find? (fun c => c.id = id) with
  | some c => .ok c
  | none => .error .rowNotFound

/-- `component_by_id(conn, id)`: runs
`SELECT * FROM components WHERE id = $1` with `fetch_one` and decodes the row
through `value_mapping`. -/
def component_by_id (db : List Component) (id : String) :
    Except GqlError ValueMapping :=
  (fetch_one db id).map value_mapping

/-- The root `component` field resolver body from
`ComponentObject::resolvers`: strips quotes from the `id` argument and calls
`component_by_id`. -/
def resolveComponent (db : List Component) (arg : String) :
    Except GqlError ValueMapping :=
  component_by_id db (remove_quotes arg)

/-- The set of recognized type tokens of the storage-layout grammar: the
Scalar Type Registry entries (spec section 4.1). -/
def knownTypeToken (t : String) : Bool :=
  t = ScalarType.ADDRESS || t = ScalarType.FELT || t = ScalarType.DATE_TIME ||
    t = TypeRef.STRING || t = TypeRef.ID

/-- Split a character list on a delimiter character (empty segments kept). -/
def splitOnChar (sep : Char) : List Char → List (List Char)
  | [] => [[]]
  | c :: cs =>
    match splitOnChar sep cs with
    | [] => [[]]
    | w :: ws => if c = sep then [] :: w :: ws else (c :: w) :: ws

/-- Split a string on a delimiter character (empty segments kept). -/
def splitOnStr (sep : Char) (s : String) : List String :=
  (splitOnChar sep s.data).map String.mk

/-- One `field_name:field_type` pair of the storage-layout description. -/
def parsePair (s : String) : Except GqlError (String × String) :=
  match splitOnStr ':' s with
  | [f, t] => if knownTypeToken t then .ok (f, t) else .error (.parseError t)
  | _ => .error (.parseError s)

/-- Modelled from the spec: `type_mapping_from_definition` from
`graphql/object/storage.rs` (not in the excerpt) parses a storage-layout
description — an ordered comma-delimited list of `field_name:field_type`
pairs — into an ordered type mapping, failing with a parse error (never a
panic, never a partial mapping) on an empty description, an unknown type
token, or a duplicate field name. -/
def type_mapping_from_definition (d : String) :
    Except GqlError TypeMapping := do
  if d = "" then
    throw (.parseError "empty storage definition")
  else
    let pairs ← (splitOnStr ',' d).mapM parsePair
    if (pairs.map Prod.fst).Nodup then
      pure pairs
    else
      throw (.parseError "duplicate field name")

/-- The foreign-key column selector passed to `storage_by_column`; the excerpt
only uses `ColumnName::ComponentId`. -/
inductive ColumnName where
  | ComponentId
  deriving DecidableEq, Repr

/-- A physical row of a per-storage-type table: the owning component id
(foreign key) plus the data columns in physical column order. -/
structure StorageRow where
  component_id : String
  columns : List (String × GqlValue)
  deriving DecidableEq, Repr

/-- The embedded per-storage-type tables: table name → rows. -/
abbrev StorageDB : Type := List (String × List StorageRow)

/-- Decode one physical row strictly according to the supplied type mapping:
field order is the mapping's order, not the physical column order. -/
def decodeRow (tm : TypeMapping) (row : StorageRow) :
    Except GqlError ValueMapping :=
  tm.mapM (fun p =>
    match List.lookup p.1 row.columns with
    | some v => .ok (p.1, v)
    | none => .error (.fieldMissing p.1))

/-- Modelled from the spec: `storage_by_column` from
`graphql/object/storage.rs` (not in the excerpt) fetches the storage row for
a given owning-entity id from the table of the named storage type, filtering
on the named foreign-key column, and decodes it according to the supplied
type mapping. -/
def storage_by_column (sdb : StorageDB) (col : ColumnName) (id : String)
    (type_name : String) (tm : TypeMapping) : Except GqlError ValueMapping :=
  match List.lookup type_name sdb with
  | none => .error .storeFailure
  | some rows =>
    match rows.find? (fun r =>
        (match col with | ColumnName.ComponentId => r.component_id) = id) with
    | some row => decodeRow tm row
    | none => .error .rowNotFound

/-- A resolved field value carrying a runtime type tag, the embedding of
`FieldValue::with_type(FieldValue::owned_any(values), type_name)`. -/
structure TaggedValue where
  tag : String
  value : ValueMapping
  deriving DecidableEq

/-- The nested `storage` field resolver body from
`ComponentObject::nested_fields`: extracts `id`, `storageDefinition` and
`name` from the parent value mapping, derives the type mapping fresh from the
definition, fetches the storage row keyed on the `ComponentId` column, and
tags the result with the parent's `name`. -/
def resolveStorage (parent : ValueMapping) (sdb : StorageDB) :
    Except GqlError TaggedValue := do
  let id ← extract parent "id"
  let defintion ← extract parent "storageDefinition"
  let type_name ← extract parent "name"
  let field_type_mapping ← type_mapping_from_definition defintion
  let storage_values ←
    storage_by_column sdb ColumnName.ComponentId id type_name
      field_type_mapping
  return ⟨type_name, storage_values⟩

/-- Modelled from the spec: `format_name` from `graphql/utils` (not in the
excerpt) turns a stored storage name into its pair of internal field name and
schema-facing (capitalized) type name. -/
def format_name (s : String) : String × String := (s, s.capitalize)

/-- Schema union (`async_graphql::dynamic::Union`): a name plus the ordered
list of its possible types. -/
structure Union where
  name : String
  possible_types : List String
  deriving DecidableEq, Repr

/-- `Union::possible_type`: appends one possible type. -/
def Union.possible_type (u : Union) (t : String) : Union :=
  { u with possible_types := u.possible_types ++ [t] }

/-- `Union::new`. -/
def Union.new (n : String) : Union := ⟨n, []⟩

/-- Argument declaration (`async_graphql::dynamic::InputValue`). -/
structure InputValueDef where
  name : String
  ty : TypeRefE
  deriving DecidableEq, Repr

/-- Declaration-level view of an `async_graphql::dynamic::Field`: its name,
return type and arguments (the resolver bodies are embedded separately as
`resolveComponent` and `resolveStorage`). -/
structure FieldDef where
  name : String
  ty : TypeRefE
  args : List InputValueDef
  deriving DecidableEq, Repr

/-- The `ComponentObject` struct. -/
structure ComponentObject where
  field_type_mapping : TypeMapping
  storage_names : List String

/-- `ComponentObject::new(storage_names)`. -/
def ComponentObject.new (storage_names : List String) : ComponentObject :=
  { field_type_mapping :=
      [ ("id", TypeRef.ID),
        ("name", TypeRef.STRING),
        ("address", ScalarType.ADDRESS),
        ("classHash", ScalarType.FELT),
        ("transactionHash", ScalarType.FELT),
        ("storageDefinition", TypeRef.STRING),
        ("createdAt", ScalarType.DATE_TIME) ],
    storage_names := storage_names }

/-- `ObjectTrait::name` for `ComponentObject`. -/
def ComponentObject.objName (_o : ComponentObject) : String := "component"

/-- `ObjectTrait::type_name` for `ComponentObject`. -/
def ComponentObject.type_name (_o : ComponentObject) : String := "Component"

/-- `ComponentObject::unions`: folds the storage names into the single
`Storage` union, adding `format_name(storage).1` (the type name) as a
possible type for each. -/
def ComponentObject.unions (o : ComponentObject) : List Union :=
  [o.storage_names.foldl
    (fun u storage => u.possible_type (format_name storage).2)
    (Union.new "Storage")]

/-- The declaration-level content of `ComponentObject::nested_fields`: one
field `storage` of (nullable) named type `Storage`. -/
def ComponentObject.nested_fields (_o : ComponentObject) : List FieldDef :=
  [⟨"storage", TypeRefE.named "Storage", []⟩]

/-- The declaration-level content of `ComponentObject::resolvers`: one root
field named `self.name()` of non-null named type `self.type_name()`, with a
single argument `id` of non-null `ID` type. -/
def ComponentObject.resolvers (o : ComponentObject) : List FieldDef :=
  [⟨o.objName, TypeRefE.named_nn o.type_name,
    [⟨"id", TypeRefE.named_nn TypeRef.ID⟩]⟩]

/-- Demo parent value mapping: a resolved Component row for id `0x1` whose
storage type is `Position` with layout `x:Felt,y:Felt`. -/
def demoParent : ValueMapping :=
  [ ("id", GqlValue.str "0x1"),
    ("storageDefinition", GqlValue.str "x:Felt,y:Felt"),
    ("name", GqlValue.str "Position") ]

/-- Demo storage tables: a `Position` table whose single row belongs to
component `0x1`, with columns stored in the order `y`, `x` (deliberately not
the declaration order). -/
def demoStorageDB : StorageDB :=
  [("Position",
    [⟨"0x1", [("y", GqlValue.str "0xb"), ("x", GqlValue.str "0xa")]⟩])]

/-- Demo parent value mapping whose storage definition holds an unknown type
token. -/
def badDefParent : ValueMapping :=
  [ ("id", GqlValue.str "0x1"),
    ("storageDefinition", GqlValue.str "x:Bogus"),
    ("name", GqlValue.str "Position") ]

/-- Folding `Union.possible_type` over a list of names appends their images in
order. -/
theorem foldl_possible_type_eq (f : String → String) :
    ∀ (ns : List String) (u : Union),
      ns.foldl (fun u s => u.possible_type (f s)) u =
        ⟨u.name, u.possible_types ++ ns.map f⟩ := by
  intro ns
  induction ns with
  | nil => intro u; simp [Union.possible_type]
  | cons hd tl ih =>
    intro u
    rw [List.foldl_cons, ih]
    simp [Union.possible_type]

/-- Once the three parent extractions succeed, `resolveStorage` is the
fresh-derivation / fetch / tag pipeline on the extracted values. -/
theorem resolveStorage_extracted (parent : ValueMapping) (sdb : StorageDB)
    (i d n : String)
    (h1 : extract parent "id" = .ok i)
    (h2 : extract parent "storageDefinition" = .ok d)
    (h3 : extract parent "name" = .ok n) :
    resolveStorage parent sdb =
      Except.bind (type_mapping_from_definition d) (fun ftm =>
        Except.bind (storage_by_column sdb ColumnName.ComponentId i n ftm)
          (fun sv => Except.ok (TaggedValue.mk n sv))) := by
  simp only [resolveStorage, h1, h2, h3]
  rfl

/-- C1 (counterexample): on an empty `components` table, resolving
`component(id: "0x2")` does not produce a null result with no error — it
propagates a row-not-found error, because `component_by_id` uses sqlx
`fetch_one` semantics. -/
theorem C1_counterexample :
    resolveComponent ([] : List Component) "0x2" =
      Except.error GqlError.rowNotFound := rfl

/-- C1 (amended): for every id with no matching row in the components table,
resolving the root `component` field propagates a row-not-found error — a
missing row is an error, not a query-level null result. -/
theorem C1_missing_row_propagates_not_found (db : List Component)
    (arg : String)
    (h : db.find? (fun c => c.id = remove_quotes arg) = none) :
    resolveComponent db arg = Except.error GqlError.rowNotFound := by
  simp [resolveComponent, component_by_id, fetch_one, h, Except.map]

/-- Witness for C1's amended theorem at the empty table and id `0x9`. -/
theorem C1_missing_row_propagates_not_found_witness :
    (([] : List Component).find?
        (fun c => c.id = remove_quotes "0x9") = none) ∧
      resolveComponent ([] : List Component) "0x9" =
        Except.error GqlError.rowNotFound :=
  ⟨rfl, C1_missing_row_propagates_not_found [] "0x9" rfl⟩

/-- C2: for every parent value mapping with extractable `id`,
`storageDefinition` and `name` fields, the nested `storage` field resolves by
deriving the type mapping fresh from the parent's `storageDefinition`,
fetching the storage row keyed on the `ComponentId` column equal to the
parent's id, and tagging the result with the parent's `name`, so a successful
resolution's runtime tag always equals the parent's declared type name. -/
theorem C2_nested_storage_resolution (parent : ValueMapping)
    (sdb : StorageDB) (i d n : String)
    (h1 : extract parent "id" = .ok i)
    (h2 : extract parent "storageDefinition" = .ok d)
    (h3 : extract parent "name" = .ok n) :
    (resolveStorage parent sdb =
      Except.bind (type_mapping_from_definition d) (fun ftm =>
        Except.bind (storage_by_column sdb ColumnName.ComponentId i n ftm)
          (fun sv => Except.ok (TaggedValue.mk n sv)))) ∧
      ∀ tv, resolveStorage parent sdb = .ok tv → tv.tag = n := by
  refine ⟨resolveStorage_extracted parent sdb i d n h1 h2 h3, ?_⟩
  intro tv htv
  rw [resolveStorage_extracted parent sdb i d n h1 h2 h3] at htv
  cases hq : type_mapping_from_definition d with
  | error e => rw [hq] at htv; simp [Except.bind] at htv
  | ok tm =>
    rw [hq] at htv
    simp only [Except.bind] at htv
    cases hs : storage_by_column sdb ColumnName.ComponentId i n tm with
    | error e => rw [hs] at htv; simp at htv
    | ok vm =>
      rw [hs] at htv
      simp only [Except.ok.injEq] at htv
      rw [← htv]

/-- Witness for C2 at the demo parent and storage tables. -/
theorem C2_nested_storage_resolution_witness :
    extract demoParent "id" = Except.ok "0x1" ∧
    extract demoParent "storageDefinition" = Except.ok "x:Felt,y:Felt" ∧
    extract demoParent "name" = Except.ok "Position" ∧
    ((resolveStorage demoParent demoStorageDB =
      Except.bind (type_mapping_from_definition "x:Felt,y:Felt") (fun ftm =>
        Except.bind
          (storage_by_column demoStorageDB ColumnName.ComponentId "0x1"
            "Position" ftm)
          (fun sv => Except.ok (TaggedValue.mk "Position" sv)))) ∧
      ∀ tv, resolveStorage demoParent demoStorageDB = .ok tv →
        tv.tag = "Position") :=
  ⟨rfl, rfl, rfl,
    C2_nested_storage_resolution demoParent demoStorageDB "0x1"
      "x:Felt,y:Felt" "Position" rfl rfl rfl⟩

/-- C3: `ComponentObject`'s field type mapping holds exactly the seven fields
id, name, address, classHash, transactionHash, storageDefinition, createdAt,
in that order, typed ID, String, Address, Felt, Felt, String, DateTime. -/
theorem C3_component_field_type_mapping (ns : List String) :
    (ComponentObject.new ns).field_type_mapping =
      [ ("id", "ID"), ("name", "String"), ("address", "Address"),
        ("classHash", "Felt"), ("transactionHash", "Felt"),
        ("storageDefinition", "String"), ("createdAt", "DateTime") ] ∧
      (ComponentObject.new ns).field_type_mapping.length = 7 :=
  ⟨rfl, rfl⟩

/-- C4: the `Storage` union built by `ComponentObject::unions` has exactly one
possible type per storage name supplied at construction, in order — its
possible-type list is precisely the image of the supplied storage names. -/
theorem C4_storage_union_possible_types (ns : List String) :
    (ComponentObject.new ns).unions =
      [⟨"Storage", ns.map (fun s => (format_name s).2)⟩] ∧
      ∀ u ∈ (ComponentObject.new ns).unions,
        u.possible_types.length = ns.length := by
  have h : (ComponentObject.new ns).unions =
      [⟨"Storage", ns.map (fun s => (format_name s).2)⟩] := by
    simp [ComponentObject.unions, ComponentObject.new, foldl_possible_type_eq,
      Union.new]
  refine ⟨h, ?_⟩
  intro u hu
  rw [h] at hu
  simp only [List.mem_singleton] at hu
  rw [hu]
  simp

/-- C5: the root `component` resolver strips literal double-quote characters
from the id argument before the store lookup, so a quoted argument and the
bare argument use the same lookup key and fetch the same row. -/
theorem C5_quoted_and_bare_id_same_row (db : List Component) (s : String) :
    resolveComponent db ("\"" ++ s ++ "\"") = resolveComponent db s ∧
      remove_quotes ("\"" ++ s ++ "\"") = remove_quotes s := by
  constructor
  · simp [resolveComponent, remove_quotes, String.data_append]
  · simp [remove_quotes, String.data_append]

/-- C6: the createdAt value produced by `value_mapping` is the stored UTC
timestamp serialized as RFC3339 at second precision with a trailing Z; in
particular the UTC instant 2024-01-01T00:00:00+00:00 serializes as
"2024-01-01T00:00:00Z". -/
theorem C6_created_at_rfc3339_z :
    (∀ c : Component, List.lookup "createdAt" (value_mapping c) =
        some (GqlValue.str (toRfc3339SecsZ c.created_at))) ∧
      toRfc3339SecsZ ⟨2024, 1, 1, 0, 0, 0⟩ = "2024-01-01T00:00:00Z" :=
  ⟨fun _ => rfl, by decide⟩

/-- C7: when the parent's storageDefinition is malformed — whenever the type
mapping builder reports a parse error — the nested storage resolution fails
with that same surfaced error: never a panic, never a partial or empty
mapping. -/
theorem C7_malformed_definition_surfaces_parse_error
    (parent : ValueMapping) (sdb : StorageDB) (i d n : String) (e : GqlError)
    (h1 : extract parent "id" = .ok i)
    (h2 : extract parent "storageDefinition" = .ok d)
    (h3 : extract parent "name" = .ok n)
    (h4 : type_mapping_from_definition d = .error e) :
    resolveStorage parent sdb = .error e := by
  rw [resolveStorage_extracted parent sdb i d n h1 h2 h3, h4]
  rfl

/-- Witness for C7 at a parent whose storage definition has the unknown type
token `Bogus`. -/
theorem C7_malformed_definition_surfaces_parse_error_witness :
    extract badDefParent "id" = Except.ok "0x1" ∧
    extract badDefParent "storageDefinition" = Except.ok "x:Bogus" ∧
    extract badDefParent "name" = Except.ok "Position" ∧
    type_mapping_from_definition "x:Bogus" =
      Except.error (GqlError.parseError "Bogus") ∧
    resolveStorage badDefParent demoStorageDB =
      Except.error (GqlError.parseError "Bogus") :=
  ⟨rfl, rfl, rfl, rfl,
    C7_malformed_definition_surfaces_parse_error badDefParent demoStorageDB
      "0x1" "x:Bogus" "Position" (GqlError.parseError "Bogus")
      rfl rfl rfl rfl⟩

/-- C8: the typed `extract` accessor is fallible and never defaults — a
missing field yields a field-missing error, a non-string value yields a
type-mismatch error — and any extraction failure on `id`,
`storageDefinition` or `name` makes the nested storage resolver fail with
that error rather than return a null result. -/
theorem C8_extract_fallible_never_defaults
    (parent : ValueMapping) (sdb : StorageDB) (e : GqlError) :
    (extract parent "id" = .error e →
      resolveStorage parent sdb = .error e) ∧
    (∀ i, extract parent "id" = .ok i →
      extract parent "storageDefinition" = .error e →
      resolveStorage parent sdb = .error e) ∧
    (∀ i d, extract parent "id" = .ok i →
      extract parent "storageDefinition" = .ok d →
      extract parent "name" = .error e →
      resolveStorage parent sdb = .error e) ∧
    (∀ f, List.lookup f parent = none →
      extract parent f = .error (.fieldMissing f)) ∧
    (∀ f v, List.lookup f parent = some v →
      (∀ s, v ≠ GqlValue.str s) →
      extract parent f = .error (.typeMismatch f)) := by
  refine ⟨?_, ?_, ?_, ?_, ?_⟩
  · intro h
    simp only [resolveStorage, h]
    rfl
  · intro i h1 h2
    simp only [resolveStorage, h1, h2]
    rfl
  · intro i d h1 h2 h3
    simp only [resolveStorage, h1, h2, h3]
    rfl
  · intro f hf
    unfold extract
    rw [hf]
  · intro f v hv hne
    unfold extract
    rw [hv]
    cases v with
    | str s => exact absurd rfl (hne s)
    | int k => rfl
    | bool b => rfl
    | null => rfl

/-- Witness for C8: the empty parent mapping is missing `id`, and a parent
carrying an integer under `id` is a type mismatch; both fail resolution. -/
theorem C8_extract_fallible_never_defaults_witness :
    (extract ([] : ValueMapping) "id" =
        Except.error (GqlError.fieldMissing "id") ∧
      resolveStorage ([] : ValueMapping) ([] : StorageDB) =
        Except.error (GqlError.fieldMissing "id")) ∧
    (List.lookup "id" [("id", GqlValue.int 3)] = some (GqlValue.int 3) ∧
      extract [("id", GqlValue.int 3)] "id" =
        Except.error (GqlError.typeMismatch "id")) :=
  ⟨⟨rfl,
    (C8_extract_fallible_never_defaults [] []
      (GqlError.fieldMissing "id")).1 rfl⟩,
   ⟨rfl,
    (C8_extract_fallible_never_defaults [("id", GqlValue.int 3)] []
      (GqlError.typeMismatch "id")).2.2.2.2 "id" (GqlValue.int 3) rfl
      (fun _ h => GqlValue.noConfusion h)⟩⟩

/-- C9: `ComponentObject` declares one root field `component` of non-null
named type `Component` with a single required non-null `ID` argument `id`,
and one nested field `storage` of (nullable) named union type `Storage`. -/
theorem C9_schema_surface (ns : List String) :
    (ComponentObject.new ns).resolvers =
      [⟨"component", TypeRefE.nonNull (TypeRefE.named "Component"),
        [⟨"id", TypeRefE.nonNull (TypeRefE.named "ID")⟩]⟩] ∧
      (ComponentObject.new ns).nested_fields =
        [⟨"storage", TypeRefE.named "Storage", []⟩] :=
  ⟨rfl, rfl⟩

/-- C10: for every Component record, `value_mapping` produces exactly the
field type mapping's keys in declaration order, and every value — including
the Felt- and Address-typed fields — is a string-tagged scalar, never a
native machine integer. -/
theorem C10_value_mapping_keys_and_string_values (ns : List String)
    (c : Component) :
    (value_mapping c).map Prod.fst =
      (ComponentObject.new ns).field_type_mapping.map Prod.fst ∧
    (value_mapping c).map Prod.fst =
      ["id", "name", "address", "classHash", "transactionHash",
       "storageDefinition", "createdAt"] ∧
    ∀ p ∈ value_mapping c, ∃ s, p.2 = GqlValue.str s := by
  refine ⟨rfl, rfl, ?_⟩
  intro p hp
  simp only [value_mapping, List.mem_cons, List.not_mem_nil, or_false] at hp
  rcases hp with rfl | rfl | rfl | rfl | rfl | rfl | rfl <;> exact ⟨_, rfl⟩

end Dojo
